import Mathlib

/-!
Shallow embedding of `convert_mov_to_mp4.py` and `convert_batch.py`
(repository `baslie/convert_mov_to_mp4`), covering the encoding policy
selector, the naming policy, file discovery, the single-file conversion
job and the batch runner, together with proofs about them.
-/

namespace MovToMp4

/-! ## Paths and directory entries

A filesystem path is modelled structurally: a directory (sequence of
components), a stem and an extension.  This mirrors `pathlib.Path`'s
`parent` / `stem` / `suffix` decomposition used by the source. -/

structure MediaPath where
  dir : List String
  stem : String
  ext : String
deriving DecidableEq, Repr

/-- Model of `pathlib.Path.with_suffix`: replace the extension, keep directory and
stem (line 72 of `convert_mov_to_mp4.py` uses it with `'.mp4'`). -/
def with_suffix (p : MediaPath) (newExt : String) : MediaPath :=
  { p with ext := newExt }

/-- Python `str.lower()`: lower-case every character.  Used on prompt
answers (lines 76, 225) and on resolved paths (line 43). -/
def str_lower (s : String) : String :=
  ⟨s.data.map Char.toLower⟩

/-- A directory entry as seen by `Path.glob`: its stem and extension in
the directory, plus the absolute path that `Path.resolve()` returns for
it (two entries may resolve to the same physical file). -/
structure DirEntry where
  stem : String
  ext : String
  resolved : String
deriving DecidableEq, Repr

/-! ## Encoding policy selector

Lines 100–144 of `convert_mov_to_mp4.py`: the `method` string selects an
`ffmpeg_params` list and the video/audio codecs.  `nCpu` stands for
`os.cpu_count()`. -/

/-- The `ffmpeg_params` list chosen for a method (lines 101–136). -/
def ffmpeg_params (method : String) (nCpu : Nat) : List String :=
  if method == "lossless" then
    ["-preset", "slow", "-crf", "0", "-threads", toString nCpu,
     "-movflags", "+faststart", "-pix_fmt", "yuv420p"]
  else if method == "high_quality" then
    ["-preset", "slow", "-crf", "15", "-threads", toString nCpu,
     "-movflags", "+faststart", "-pix_fmt", "yuv420p"]
  else if method == "copy_streams" then
    ["-c:v", "copy", "-c:a", "copy", "-movflags", "+faststart"]
  else
    ["-preset", "slow", "-crf", "18", "-threads", toString nCpu,
     "-movflags", "+faststart"]

/-- Lines 139–144: `video_codec` is `None` (passthrough) for
`copy_streams`, otherwise `libx264`. -/
def video_codec (method : String) : Option String :=
  if method == "copy_streams" then none else some "libx264"

/-- Lines 139–144: `audio_codec` is `None` (passthrough) for
`copy_streams`, otherwise `aac`.  The selector has no audio-enable
input: the codec depends on `method` alone. -/
def audio_codec (method : String) : Option String :=
  if method == "copy_streams" then none else some "aac"

/-- The value following a flag in an ffmpeg argument list (e.g. the CRF
value after `"-crf"`), `none` when the flag is absent. -/
def param_after (flag : String) : List String → Option String
  | [] => none
  | [_] => none
  | a :: b :: rest =>
      if a == flag then some b else param_after flag (b :: rest)

/-- The CRF quality value selected for a method. -/
def crf_value (method : String) (nCpu : Nat) : Option String :=
  param_after "-crf" (ffmpeg_params method nCpu)

/-- The thread count selected for a method. -/
def threads_value (method : String) (nCpu : Nat) : Option String :=
  param_after "-threads" (ffmpeg_params method nCpu)

/-- The interactive single-file menu's `method_map.get(method_choice,
'high_quality')` (lines 282–289 of `convert_mov_to_mp4.py`). -/
def single_file_method_map (choice : String) : String :=
  if choice == "1" then "copy_streams"
  else if choice == "2" then "high_quality"
  else if choice == "3" then "lossless"
  else if choice == "4" then "standard_high"
  else "high_quality"

/-! ## Python call binding for the fixed-list batch

`convert_batch.py` line 69 calls `convert_mov_to_mp4_lossless` with the
keyword arguments `method` and `remove_audio`; the function defined at
line 50 of `convert_mov_to_mp4.py` has parameters `input_path`,
`output_path`, `method` only. -/

/-- Parameter names of `def convert_mov_to_mp4_lossless(input_path,
output_path=None, method='high_quality')`. -/
def convert_param_names : List String :=
  ["input_path", "output_path", "method"]

/-- Keyword-argument names used at the call in `convert_batch.main`
(lines 69–74 of `convert_batch.py`). -/
def batch_call_keyword_args : List String :=
  ["method", "remove_audio"]

/-- A Python call binds without a `TypeError` only when every keyword
argument names a parameter of the callee. -/
def python_call_binds (params kwargs : List String) : Bool :=
  kwargs.all (fun k => params.contains k)

/-! ## File discovery (`get_unique_mov_files`, lines 29–47)

A directory listing is a list of `DirEntry`s.  `Path.glob('*.mov')` is
a case-sensitive extension filter; the function falls back to `*.MOV`
when the first pattern finds nothing, then removes duplicates keyed by
the lower-cased resolved absolute path, keeping the first entry per key
(Python `dict` insertion order). -/

/-- The call `folder.glob(pattern)` restricted to extension patterns: keep the
entries whose extension equals `ext`. -/
def glob_entries (ext : String) (listing : List DirEntry) : List DirEntry :=
  listing.filter (fun e => e.ext == ext)

/-- The dedup identity key: `str(file.resolve()).lower()` (line 43). -/
def entry_key (e : DirEntry) : String :=
  str_lower e.resolved

/-- The dedup loop of lines 41–47: walk the list, keep an entry only
when its key has not been seen. -/
def dedup_by_key : List DirEntry → List String → List DirEntry
  | [], _ => []
  | e :: rest, seen =>
      if entry_key e ∈ seen then
        dedup_by_key rest seen
      else
        e :: dedup_by_key rest (entry_key e :: seen)

/-- Lines 33–38: the primary glob `*.mov`, with fallback to `*.MOV`
when it finds nothing. -/
def globbed_mov_files (listing : List DirEntry) : List DirEntry :=
  let mov_files := glob_entries ".mov" listing
  if mov_files.isEmpty then glob_entries ".MOV" listing else mov_files

/-- Function `get_unique_mov_files`: primary glob `*.mov`, fallback `*.MOV` when
it finds nothing, then first-seen dedup by lower-cased resolved path. -/
def get_unique_mov_files (listing : List DirEntry) : List DirEntry :=
  dedup_by_key (globbed_mov_files listing) []

/-! ## Single-file conversion job (`convert_mov_to_mp4_lossless`,
lines 50–184)

The external collaborators are modelled by a `JobEnv`: which paths
exist, the answer the operator gives to the overwrite prompt, and
whether the `VideoFileClip` load and the `write_videofile` transcode
succeed (the whole body is wrapped in `try/except`, so a collaborator
failure yields `False`, never an exception to the caller). -/

structure JobEnv where
  /-- The set of paths for which `os.path.exists` is true. -/
  fsFiles : List MediaPath
  /-- The raw response to the overwrite prompt (line 76). -/
  overwriteAnswer : String
  /-- Whether `VideoFileClip(input_path)` succeeds (line 87). -/
  loadOk : Bool
  /-- Whether `write_videofile` succeeds (lines 151–158). -/
  transcodeOk : Bool
  /-- Value of `os.cpu_count()` on the host. -/
  nCpu : Nat
deriving DecidableEq, Repr

/-- Test `os.path.exists` on the modelled filesystem. -/
def path_exists (env : JobEnv) (p : MediaPath) : Bool :=
  env.fsFiles.contains p

/-- The arguments of a `write_videofile` invocation (lines 151–158):
the target path and the selected parameters and codecs. -/
structure ServiceCall where
  output : MediaPath
  params : List String
  videoCodec : Option String
  audioCodec : Option String
deriving DecidableEq, Repr

/-- What a job run did: its boolean return value and the transcoding
service call it made, if any (`none` means the service was never
invoked and no output path was touched). -/
structure JobOutcome where
  result : Bool
  serviceCall : Option ServiceCall
deriving DecidableEq, Repr

/-- Line 70–72: when no output path is given, the input path with the
suffix replaced by `.mp4`. -/
def default_output_path (input : MediaPath) : MediaPath :=
  with_suffix input ".mp4"

/-- The output path the job uses: the caller's, or the default. -/
def resolve_output (input : MediaPath) (output? : Option MediaPath) :
    MediaPath :=
  output?.getD (default_output_path input)

/-- The body of `convert_mov_to_mp4_lossless` (lines 63–184): validate
the input, resolve the output, apply the collision prompt, then load
and transcode.  `method` selects the encoding parameters passed to the
transcoding service; the service's success is `env.transcodeOk`. -/
def convert_mov_to_mp4_lossless (env : JobEnv) (input_path : MediaPath)
    (output? : Option MediaPath) (method : String) : JobOutcome :=
  if ¬ path_exists env input_path then
    ⟨false, none⟩
  else
    let output_path := resolve_output input_path output?
    if path_exists env output_path ∧ str_lower env.overwriteAnswer ≠ "y" then
      ⟨true, none⟩
    else if ¬ env.loadOk then
      ⟨false, none⟩
    else
      let call : ServiceCall :=
        ⟨output_path, ffmpeg_params method env.nCpu,
         video_codec method, audio_codec method⟩
      if env.transcodeOk then
        ⟨true, some call⟩
      else
        ⟨false, some call⟩

/-! ## Batch runner (`batch_convert_lossless`, lines 204–253) -/

/-- Line 238: the batch names each output
`Path(output_folder) / (stem + ".mp4")`. -/
def batch_output_path (output_folder : List String) (f : MediaPath) :
    MediaPath :=
  ⟨output_folder, f.stem, ".mp4"⟩

/-- The loop of lines 233–244: run the job for every file, in order,
pairing each file with its outcome; no outcome aborts the loop. -/
def batch_job_results (env : JobEnv) (output_folder : List String)
    (method : String) (files : List MediaPath) :
    List (MediaPath × JobOutcome) :=
  files.map (fun f =>
    (f, convert_mov_to_mp4_lossless env f
          (some (batch_output_path output_folder f)) method))

/-- The `success_count` accumulated by the loop. -/
def batch_success_count (env : JobEnv) (output_folder : List String)
    (method : String) (files : List MediaPath) : Nat :=
  (batch_job_results env output_folder method files).countP
    (fun r => r.2.result)

/-- The externally visible steps `batch_convert_lossless` performs, in
program order. -/
inductive BatchStep where
  | makedirs : List String → BatchStep
  | discover : BatchStep
  | prompt : BatchStep
  | runJob : MediaPath → BatchStep
deriving DecidableEq, Repr

/-- How a call to `batch_convert_lossless` ends. -/
inductive BatchOutcome where
  | noFiles
  | cancelled
  | finished : Nat → Nat → BatchOutcome
deriving DecidableEq, Repr

/-- Environment of a batch run: the input directory listing, the answer
to the confirmation prompt (line 225), and the job environment. -/
structure BatchEnv where
  listing : List DirEntry
  confirmAnswer : String
  jobEnv : JobEnv
deriving Repr

/-- A discovered entry as a path in the input folder. -/
def entry_file (folder : List String) (e : DirEntry) : MediaPath :=
  ⟨folder, e.stem, e.ext⟩

/-- Function `batch_convert_lossless` (lines 204–253): default the output folder
to the input folder, create it (`os.makedirs`, line 213), discover the
files, return when none are found, ask for confirmation, then run every
job in order and count successes. -/
def batch_convert_lossless (input_folder : List String)
    (output_folder? : Option (List String)) (method : String)
    (env : BatchEnv) : List BatchStep × BatchOutcome :=
  let output_folder := output_folder?.getD input_folder
  let mov_files :=
    (get_unique_mov_files env.listing).map (entry_file input_folder)
  if mov_files.isEmpty then
    ([.makedirs output_folder, .discover], .noFiles)
  else if str_lower env.confirmAnswer ≠ "y" then
    ([.makedirs output_folder, .discover, .prompt], .cancelled)
  else
    ([.makedirs output_folder, .discover, .prompt]
       ++ mov_files.map .runJob,
     .finished (batch_success_count env.jobEnv output_folder method mov_files)
       mov_files.length)

/-! ## Theorems -/

/-- C5: the mode-to-parameters mapping is fixed and deterministic:
`lossless` selects CRF 0, `high_quality` CRF 15, `standard_high` (the
Standard mode, handled by the selector's final branch) CRF 18, each
with thread count `os.cpu_count()`, video codec `libx264` and audio
codec `aac`; `copy_streams` selects passthrough (`None`) for both
codecs, copies both streams and sets no CRF. -/
theorem encoding_policy_fixed_mapping (n : Nat) :
    crf_value "lossless" n = some "0" ∧
    crf_value "high_quality" n = some "15" ∧
    crf_value "standard_high" n = some "18" ∧
    threads_value "lossless" n = some (toString n) ∧
    threads_value "high_quality" n = some (toString n) ∧
    threads_value "standard_high" n = some (toString n) ∧
    video_codec "lossless" = some "libx264" ∧
    video_codec "high_quality" = some "libx264" ∧
    video_codec "standard_high" = some "libx264" ∧
    audio_codec "lossless" = some "aac" ∧
    audio_codec "high_quality" = some "aac" ∧
    audio_codec "standard_high" = some "aac" ∧
    video_codec "copy_streams" = none ∧
    audio_codec "copy_streams" = none ∧
    param_after "-c:v" (ffmpeg_params "copy_streams" n) = some "copy" ∧
    param_after "-c:a" (ffmpeg_params "copy_streams" n) = some "copy" ∧
    crf_value "copy_streams" n = none :=
  ⟨rfl, rfl, rfl, rfl, rfl, rfl, rfl, rfl, rfl, rfl, rfl, rfl, rfl, rfl,
   rfl, rfl, rfl⟩

/-- C1 counterexample: the unknown mode identifier `"typo"` does not
produce the HighQuality parameter set — the selector's final branch
gives it CRF 18, not CRF 15. -/
theorem unknown_mode_gets_crf_18_not_15 :
    ("typo" ≠ "copy_streams" ∧ "typo" ≠ "high_quality" ∧
     "typo" ≠ "lossless" ∧ "typo" ≠ "standard_high") ∧
    crf_value "typo" 4 = some "18" ∧
    crf_value "high_quality" 4 = some "15" ∧
    ffmpeg_params "typo" 4 ≠ ffmpeg_params "high_quality" 4 := by
  decide

/-- C1 amended: every mode identifier outside the three branch guards
(`lossless`, `high_quality`, `copy_streams`) falls closed, without an
error, to the selector's final branch: the Standard parameter set with
CRF 18 (no `-pix_fmt` entry), re-encoding with `libx264`/`aac`; and in
the interactive menu, an unrecognized menu choice falls back to the
`high_quality` method. -/
theorem unknown_mode_falls_to_standard (method choice : String) (n : Nat)
    (h1 : method ≠ "lossless") (h2 : method ≠ "high_quality")
    (h3 : method ≠ "copy_streams")
    (hc : choice ≠ "1" ∧ choice ≠ "2" ∧ choice ≠ "3" ∧ choice ≠ "4") :
    ffmpeg_params method n =
      ["-preset", "slow", "-crf", "18", "-threads", toString n,
       "-movflags", "+faststart"] ∧
    crf_value method n = some "18" ∧
    video_codec method = some "libx264" ∧
    audio_codec method = some "aac" ∧
    single_file_method_map choice = "high_quality" := by
  have hp : ffmpeg_params method n =
      ["-preset", "slow", "-crf", "18", "-threads", toString n,
       "-movflags", "+faststart"] := by
    simp [ffmpeg_params, h1, h2, h3]
  refine ⟨hp, ?_, ?_, ?_, ?_⟩
  · unfold crf_value
    rw [hp]
    simp [param_after]
  · simp [video_codec, h3]
  · simp [audio_codec, h3]
  · simp [single_file_method_map, hc.1, hc.2.1, hc.2.2.1, hc.2.2.2]

/-- Witness for `unknown_mode_falls_to_standard` at the concrete
unknown mode `"typo"` and menu choice `"9"`. -/
theorem unknown_mode_falls_to_standard_witness :
    ffmpeg_params "typo" 4 =
      ["-preset", "slow", "-crf", "18", "-threads", toString 4,
       "-movflags", "+faststart"] ∧
    crf_value "typo" 4 = some "18" ∧
    video_codec "typo" = some "libx264" ∧
    audio_codec "typo" = some "aac" ∧
    single_file_method_map "9" = "high_quality" :=
  unknown_mode_falls_to_standard "typo" "9" 4 (by decide) (by decide)
    (by decide) (by decide)

/-- C2 (code-bug evidence): the fixed-list batch call passes the
keyword argument `remove_audio`, which is not a parameter of
`convert_mov_to_mp4_lossless`, so the call raises a `TypeError`; and
the selector has no audio-enable input at all — `high_quality` always
carries the audio codec `aac`. -/
theorem remove_audio_keyword_not_accepted :
    python_call_binds convert_param_names batch_call_keyword_args = false ∧
    convert_param_names.contains "remove_audio" = false ∧
    audio_codec "high_quality" = some "aac" := by
  decide

/-- C6: with no explicit output path the job converts next to the
input — same stem, same directory, extension `.mp4`; an explicit
output path is used unchanged; and the batch's naming puts the input's
stem with extension `.mp4` into the chosen output folder. -/
theorem naming_policy_stem_dir_ext (input o : MediaPath)
    (outf : List String) :
    (resolve_output input none).stem = input.stem ∧
    (resolve_output input none).dir = input.dir ∧
    (resolve_output input none).ext = ".mp4" ∧
    resolve_output input (some o) = o ∧
    (batch_output_path outf input).stem = input.stem ∧
    (batch_output_path outf input).dir = outf ∧
    (batch_output_path outf input).ext = ".mp4" :=
  ⟨rfl, rfl, rfl, rfl, rfl, rfl, rfl⟩

/-- C7: when the output path already exists and the overwrite prompt is
declined (any answer whose lower-casing is not `"y"`), the job returns
`True` without invoking the transcoding service and without touching
the existing output file. -/
theorem declined_overwrite_skips_as_success (env : JobEnv)
    (input out : MediaPath) (method : String)
    (hin : path_exists env input = true)
    (hout : path_exists env out = true)
    (hans : str_lower env.overwriteAnswer ≠ "y") :
    convert_mov_to_mp4_lossless env input (some out) method =
      ⟨true, none⟩ := by
  simp [convert_mov_to_mp4_lossless, hin, hout, hans, resolve_output]

/-- Sample paths and environments used by concrete witnesses. -/
def samplePathIn : MediaPath := ⟨["videos"], "clip", ".mov"⟩

def samplePathOut : MediaPath := ⟨["videos"], "clip", ".mp4"⟩

def sampleEnvSkip : JobEnv :=
  ⟨[samplePathIn, samplePathOut], "n", true, true, 4⟩

/-- Witness for `declined_overwrite_skips_as_success`: input and output
both exist, the prompt is answered `"n"`. -/
theorem declined_overwrite_skips_as_success_witness :
    convert_mov_to_mp4_lossless sampleEnvSkip samplePathIn
      (some samplePathOut) "high_quality" = ⟨true, none⟩ :=
  declined_overwrite_skips_as_success sampleEnvSkip samplePathIn
    samplePathOut "high_quality" (by decide) (by decide) (by decide)

/-- C8: when the input path does not exist the job fails closed: it
returns `False` without invoking the transcoding service and without
writing any output file. -/
theorem missing_input_fails_without_transcode (env : JobEnv)
    (input : MediaPath) (out? : Option MediaPath) (method : String)
    (h : path_exists env input = false) :
    convert_mov_to_mp4_lossless env input out? method =
      ⟨false, none⟩ := by
  simp [convert_mov_to_mp4_lossless, h]

/-- Environment for the missing-input witness: the filesystem is
empty. -/
def sampleEnvEmpty : JobEnv := ⟨[], "y", true, true, 4⟩

/-- Witness for `missing_input_fails_without_transcode` on an empty
filesystem. -/
theorem missing_input_fails_without_transcode_witness :
    convert_mov_to_mp4_lossless sampleEnvEmpty samplePathIn none
      "high_quality" = ⟨false, none⟩ :=
  missing_input_fails_without_transcode sampleEnvEmpty samplePathIn none
    "high_quality" (by decide)

/-- C10: every call to `batch_convert_lossless` performs `makedirs` on
the output folder (defaulted to the input folder) as its first step,
before file discovery and before the confirmation prompt — so the
output directory is created by the orchestrator itself even when no
input files are found or the user cancels. -/
theorem batch_creates_output_dir_first (input_folder : List String)
    (output_folder? : Option (List String)) (method : String)
    (env : BatchEnv) :
    (batch_convert_lossless input_folder output_folder? method env).1.head? =
      some (BatchStep.makedirs (output_folder?.getD input_folder)) ∧
    (batch_convert_lossless input_folder output_folder? method
        env).1.tail.head? = some BatchStep.discover := by
  unfold batch_convert_lossless
  by_cases h1 : (List.map (entry_file input_folder)
      (get_unique_mov_files env.listing)).isEmpty = true <;>
    by_cases h2 : str_lower env.confirmAnswer = "y" <;>
      simp [h1, h2]

/-- Splitting a list's length by a Boolean predicate. -/
theorem length_filter_split {α : Type} (p : α → Bool) (l : List α) :
    (l.filter p).length + (l.filter (fun a => ! p a)).length = l.length := by
  induction l with
  | nil => rfl
  | cons a t ih =>
      cases h : p a <;> simp [List.filter_cons, h] <;> omega

/-- C3: under a transcoding service and operator that let every
validated job succeed (load and transcode succeed, overwrite confirmed),
the batch loop produces exactly one result per job spec, in input
order, never aborting, and the success count is `N - K` where `K` is
the number of specs whose input file is missing. -/
theorem batch_runner_accounting (env : JobEnv)
    (output_folder : List String) (method : String)
    (files : List MediaPath)
    (hans : str_lower env.overwriteAnswer = "y")
    (hload : env.loadOk = true) (htrans : env.transcodeOk = true) :
    (batch_job_results env output_folder method files).length =
      files.length ∧
    (batch_job_results env output_folder method files).map Prod.fst =
      files ∧
    batch_success_count env output_folder method files =
      files.length -
        (files.filter (fun f => ! path_exists env f)).length := by
  have hres : ∀ f : MediaPath,
      (convert_mov_to_mp4_lossless env f
          (some (batch_output_path output_folder f)) method).result =
        path_exists env f := by
    intro f
    cases hf : path_exists env f with
    | false => simp [convert_mov_to_mp4_lossless, hf]
    | true => simp [convert_mov_to_mp4_lossless, hf, hans, hload, htrans]
  refine ⟨by simp [batch_job_results],
    by simp [batch_job_results, Function.comp_def], ?_⟩
  have hcount : batch_success_count env output_folder method files =
      List.countP (fun f => path_exists env f) files := by
    unfold batch_success_count batch_job_results
    rw [List.countP_map]
    exact List.countP_congr (fun f _ => by simp [Function.comp, hres f])
  have hsplit := length_filter_split (fun f => path_exists env f) files
  rw [hcount, List.countP_eq_length_filter]
  omega

/-- Concrete batch for the accounting witness: `clip.mov` exists,
`gone.mov` does not. -/
def sampleMissing : MediaPath := ⟨["videos"], "gone", ".mov"⟩

def sampleEnvBatch : JobEnv := ⟨[samplePathIn], "y", true, true, 4⟩

def sampleBatchFiles : List MediaPath := [samplePathIn, sampleMissing]

/-- Witness for `batch_runner_accounting`: two job specs, one missing
input, so two ordered results and one success. -/
theorem batch_runner_accounting_witness :
    (batch_job_results sampleEnvBatch ["videos"] "high_quality"
        sampleBatchFiles).length = sampleBatchFiles.length ∧
    (batch_job_results sampleEnvBatch ["videos"] "high_quality"
        sampleBatchFiles).map Prod.fst = sampleBatchFiles ∧
    batch_success_count sampleEnvBatch ["videos"] "high_quality"
        sampleBatchFiles =
      sampleBatchFiles.length -
        (sampleBatchFiles.filter
          (fun f => ! path_exists sampleEnvBatch f)).length :=
  batch_runner_accounting sampleEnvBatch ["videos"] "high_quality"
    sampleBatchFiles (by decide) (by decide) (by decide)

/-- Every entry the dedup loop keeps has a key outside the seen set it
started from. -/
theorem dedup_by_key_key_not_seen :
    ∀ (l : List DirEntry) (seen : List String),
      ∀ e ∈ dedup_by_key l seen, entry_key e ∉ seen := by
  intro l
  induction l with
  | nil => intro seen e he; cases he
  | cons a t ih =>
      intro seen e he
      by_cases ha : entry_key a ∈ seen
      · rw [dedup_by_key, if_pos ha] at he
        exact ih seen e he
      · rw [dedup_by_key, if_neg ha] at he
        rcases List.mem_cons.mp he with he' | he'
        · exact he' ▸ ha
        · intro hk
          exact ih (entry_key a :: seen) e he' (List.mem_cons_of_mem _ hk)

/-- The dedup loop never keeps two entries with the same key. -/
theorem dedup_by_key_pairwise :
    ∀ (l : List DirEntry) (seen : List String),
      (dedup_by_key l seen).Pairwise
        (fun a b => entry_key a ≠ entry_key b) := by
  intro l
  induction l with
  | nil => intro seen; exact List.Pairwise.nil
  | cons a t ih =>
      intro seen
      by_cases ha : entry_key a ∈ seen
      · rw [dedup_by_key, if_pos ha]
        exact ih seen
      · rw [dedup_by_key, if_neg ha]
        refine List.Pairwise.cons ?_ (ih (entry_key a :: seen))
        intro b hb hab
        exact dedup_by_key_key_not_seen t (entry_key a :: seen) b hb
          (hab ▸ List.mem_cons_self _ _)

/-- For a key not already seen, the first entry with that key in the
dedup loop's output is the first entry with that key in its input: the
loop keeps the first entry seen per key. -/
theorem dedup_by_key_find? (k : String) :
    ∀ (l : List DirEntry) (seen : List String), k ∉ seen →
      (dedup_by_key l seen).find? (fun e => entry_key e == k) =
        l.find? (fun e => entry_key e == k) := by
  intro l
  induction l with
  | nil => intro seen _; rfl
  | cons a t ih =>
      intro seen hk
      by_cases ha : entry_key a ∈ seen
      · rw [dedup_by_key, if_pos ha]
        have hne : (entry_key a == k) = false := by
          simp only [beq_eq_false_iff_ne]
          intro h
          exact hk (h ▸ ha)
        simp only [List.find?, hne]
        exact ih seen hk
      · rw [dedup_by_key, if_neg ha]
        by_cases hak : entry_key a = k
        · have hpos : (entry_key a == k) = true := by
            simp [hak]
          simp only [List.find?, hpos]
        · have hneg : (entry_key a == k) = false := by
            simp only [beq_eq_false_iff_ne]
            exact hak
          simp only [List.find?, hneg]
          refine ih (entry_key a :: seen) ?_
          intro hmem
          rcases List.mem_cons.mp hmem with h | h
          · exact hak h.symm
          · exact hk h

/-- The spec's discovery scenario: `a.mov` and `A.MOV` are two
references to the same physical file, next to `b.mov`. -/
def scenarioListing : List DirEntry :=
  [⟨"a", ".mov", "/d/a.mov"⟩, ⟨"A", ".MOV", "/d/a.mov"⟩,
   ⟨"b", ".mov", "/d/b.mov"⟩]

/-- A listing with two `*.mov` entries whose resolved paths differ only
in case, exercising the case-folded dedup key. -/
def scenarioDupListing : List DirEntry :=
  [⟨"x", ".mov", "/d/x.mov"⟩, ⟨"x2", ".mov", "/d/X.MOV"⟩]

/-- C4: discovery never returns two entries with the same lower-cased
resolved path, and per key it keeps the first globbed entry; on the
spec's `a.mov`/`A.MOV`/`b.mov` scenario it returns exactly 2 entries,
and two same-file-up-to-case references collapse to the first. -/
theorem discovery_dedups_by_casefolded_path (listing : List DirEntry) :
    (get_unique_mov_files listing).Pairwise
      (fun a b => entry_key a ≠ entry_key b) ∧
    (∀ k : String,
      (get_unique_mov_files listing).find? (fun e => entry_key e == k) =
        (globbed_mov_files listing).find? (fun e => entry_key e == k)) ∧
    (get_unique_mov_files scenarioListing).length = 2 ∧
    get_unique_mov_files scenarioDupListing =
      [⟨"x", ".mov", "/d/x.mov"⟩] := by
  refine ⟨dedup_by_key_pairwise _ _, ?_, by decide, by decide⟩
  intro k
  exact dedup_by_key_find? k (globbed_mov_files listing) []
    (List.not_mem_nil k)

/-- C9: when the case-sensitive primary glob `*.mov` finds nothing,
discovery uses the alternate-case glob `*.MOV`; when that finds nothing
either, discovery returns the empty list and the batch runner reports
`noFiles` and stops normally, without an error and without prompting or
running jobs. -/
theorem glob_fallback_and_empty_result (env : BatchEnv)
    (input_folder : List String) (output_folder? : Option (List String))
    (method : String)
    (h : glob_entries ".mov" env.listing = []) :
    get_unique_mov_files env.listing =
      dedup_by_key (glob_entries ".MOV" env.listing) [] ∧
    (glob_entries ".MOV" env.listing = [] →
      get_unique_mov_files env.listing = [] ∧
      batch_convert_lossless input_folder output_folder? method env =
        ([BatchStep.makedirs (output_folder?.getD input_folder),
          BatchStep.discover], BatchOutcome.noFiles)) := by
  have hg : globbed_mov_files env.listing =
      glob_entries ".MOV" env.listing := by
    simp [globbed_mov_files, h]
  constructor
  · rw [get_unique_mov_files, hg]
  · intro h2
    have hu : get_unique_mov_files env.listing = [] := by
      rw [get_unique_mov_files, hg, h2]
      rfl
    refine ⟨hu, ?_⟩
    simp [batch_convert_lossless, hu]

/-- A listing with no `.mov` or `.MOV` entries at all. -/
def sampleEmptyBatchEnv : BatchEnv :=
  ⟨[⟨"notes", ".txt", "/d/notes.txt"⟩], "y", sampleEnvEmpty⟩

/-- Witness for `glob_fallback_and_empty_result`: a listing where both
globs are empty, so discovery is empty and the batch reports
`noFiles`. -/
theorem glob_fallback_and_empty_result_witness :
    get_unique_mov_files sampleEmptyBatchEnv.listing =
      dedup_by_key (glob_entries ".MOV" sampleEmptyBatchEnv.listing) [] ∧
    get_unique_mov_files sampleEmptyBatchEnv.listing = [] ∧
    batch_convert_lossless ["in"] none "high_quality"
        sampleEmptyBatchEnv =
      ([BatchStep.makedirs ["in"], BatchStep.discover],
       BatchOutcome.noFiles) :=
  have h := glob_fallback_and_empty_result sampleEmptyBatchEnv ["in"]
    none "high_quality" (by decide)
  ⟨h.1, (h.2 (by decide)).1, (h.2 (by decide)).2⟩

end MovToMp4
